import Mathlib

/-!
Shallow embedding of the AR foot-tracking pipeline of `src/main.js`
(sneaker-customizer-ar): landmark validation, foot selection, shoe
placement (`positionARShoe`, lines 1087-1169), the per-frame handler
(`onPoseResults`, lines 903-980) and session exit (`exitARMode`,
lines 734-752).

Numeric conventions: normalized landmark coordinates and confidences are
rationals (every JS number literal involved is an exact decimal); the
host math calls `Math.sqrt`, `Math.atan2` and the constant `Math.PI`
used by `positionARShoe` are abstracted as a `MathOps` record over an
arbitrary linear ordered field, so every definition stays executable.
-/

/-- A MediaPipe pose landmark as consumed by `onPoseResults`:
normalized position plus an estimator confidence `visibility`. -/
structure Landmark where
  x : ℚ
  y : ℚ
  z : ℚ
  visibility : ℚ
deriving DecidableEq

/-- Per-frame result delivered by the pose engine: `results.poseLandmarks`
is either absent or a list of landmarks (line 913 checks both). -/
structure PoseResults where
  poseLandmarks : Option (List Landmark)
deriving DecidableEq

/-- Host math library interface: `Math.sqrt`, `Math.atan2`, `Math.PI`
as called at lines 1136, 1143 and 1149 of `src/main.js`. -/
structure MathOps (R : Type) where
  sqrt : ℚ → R
  atan2 : ℚ → ℚ → R
  pi : R

/-- The mutable state of the tracked object `arShoeModel` written by
`positionARShoe`: position, rotation, scale and visibility. -/
structure ShoeModel (R : Type) where
  posX : ℚ
  posY : ℚ
  posZ : ℚ
  rotX : R
  rotY : R
  rotZ : R
  scaleX : R
  scaleY : R
  scaleZ : R
  visible : Bool
deriving DecidableEq

/-- Overlay drawing commands issued onto `arOverlayCanvas` during one
frame (`drawFootIndicators`, `drawPoseDetectionIndicator`,
`drawNoPoseIndicator`). -/
inductive OverlayCmd where
  | footPoint (x y : ℚ) (label color : String)
  | connection (x1 y1 x2 y2 : ℚ) (color : String)
  | poseHint
  | noPoseHint
deriving DecidableEq

/-- AR session state touched by the frame handler and `exitARMode`:
presence flags for the nullable globals (`arOverlayContext` and
`arOverlayCanvas` as `hasOverlay`, `arCamera`), the camera stream, the
AR UI container, the overlay canvas content and the status line. -/
structure ARState (R : Type) where
  isARMode : Bool
  hasOverlay : Bool
  arCamera : Bool
  videoStream : Bool
  arInterfaceVisible : Bool
  canvasW : ℚ
  canvasH : ℚ
  overlay : List OverlayCmd
  statusMessage : String
  statusType : String
  arShoeModel : Option (ShoeModel R)
deriving DecidableEq

/-- Tracking-quality states named by the specification (section 4.4);
the state the spec calls FeetPartial is named `FeetIncomplete` here. -/
inductive TrackingStatus where
  | Searching
  | PoseFound
  | FeetIncomplete
  | FeetLocked
  | Error
  | Other
deriving DecidableEq

/-- Mapping from the status messages written by `onPoseResults` to the
specification's status names (spec section 4.4 table). -/
def derivedStatus (msg : String) : TrackingStatus :=
  if msg = "Looking for pose..." then TrackingStatus.Searching
  else if msg = "Point camera at your feet - move closer 👣" then TrackingStatus.PoseFound
  else if msg = "Feet detected - show ankle and toes clearly 👣" then TrackingStatus.FeetIncomplete
  else if msg = "Shoe positioned! Try moving your foot 👟✨" then TrackingStatus.FeetLocked
  else TrackingStatus.Other

/-- Landmark validation (lines 917-922 of `src/main.js`):
`landmarks[idx]?.visibility > 0.5 ? landmarks[idx] : null`. -/
def getValidated (landmarks : List Landmark) (idx : ℕ) : Option Landmark :=
  match landmarks.get? idx with
  | some lm => if 1/2 < lm.visibility then some lm else none
  | none => none

/-- `leftAnkle` of line 917: landmark index 27. -/
def leftAnkleOf (landmarks : List Landmark) : Option Landmark := getValidated landmarks 27

/-- `rightAnkle` of line 918: landmark index 28. -/
def rightAnkleOf (landmarks : List Landmark) : Option Landmark := getValidated landmarks 28

/-- `leftHeel` of line 919: landmark index 29. -/
def leftHeelOf (landmarks : List Landmark) : Option Landmark := getValidated landmarks 29

/-- `rightHeel` of line 920: landmark index 30. -/
def rightHeelOf (landmarks : List Landmark) : Option Landmark := getValidated landmarks 30

/-- `leftFootIndex` of line 921: landmark index 31. -/
def leftFootIndexOf (landmarks : List Landmark) : Option Landmark := getValidated landmarks 31

/-- `rightFootIndex` of line 922: landmark index 32. -/
def rightFootIndexOf (landmarks : List Landmark) : Option Landmark := getValidated landmarks 32

/-- `[a, b, c].filter(Boolean).length` of lines 925-926. -/
def footCount (a b c : Option Landmark) : ℕ :=
  ([a, b, c].filterMap id).length

/-- `leftFootLandmarks` of line 925. -/
def leftFootCount (landmarks : List Landmark) : ℕ :=
  footCount (leftAnkleOf landmarks) (leftHeelOf landmarks) (leftFootIndexOf landmarks)

/-- `rightFootLandmarks` of line 926. -/
def rightFootCount (landmarks : List Landmark) : ℕ :=
  footCount (rightAnkleOf landmarks) (rightHeelOf landmarks) (rightFootIndexOf landmarks)

/-- `hasGoodLeftFoot` of line 931: at least 2 of the 3 left landmarks. -/
abbrev hasGoodLeftFoot (landmarks : List Landmark) : Prop :=
  2 ≤ leftFootCount landmarks

/-- `hasGoodRightFoot` of line 932. -/
abbrev hasGoodRightFoot (landmarks : List Landmark) : Prop :=
  2 ≤ rightFootCount landmarks

/-- `hasCompleteRightFoot` of line 936: `rightAnkle && rightFootIndex`. -/
abbrev hasCompleteRightFoot (landmarks : List Landmark) : Prop :=
  (rightAnkleOf landmarks).isSome = true ∧ (rightFootIndexOf landmarks).isSome = true

/-- `hasCompleteLeftFoot` of line 937: `leftAnkle && leftFootIndex`. -/
abbrev hasCompleteLeftFoot (landmarks : List Landmark) : Prop :=
  (leftAnkleOf landmarks).isSome = true ∧ (leftFootIndexOf landmarks).isSome = true

/-- `updateARStatus` (lines 1199-1205): set the status line text and class. -/
def updateARStatus {R : Type} (message ty : String) (s : ARState R) : ARState R :=
  { s with statusMessage := message, statusType := ty }

/-- `arShoeModel.visible = false` guarded by `if (arShoeModel)`
(lines 962-964 and 973-975). -/
def hideShoe {R : Type} (mo : Option (ShoeModel R)) : Option (ShoeModel R) :=
  mo.map fun m => { m with visible := false }

/-- `drawFootIndicators` (lines 1009-1044): a point for each present
landmark, then a dashed ankle-to-toe connection, right side preferred. -/
def drawFootIndicators (leftAnkle rightAnkle leftFootIndex rightFootIndex : Option Landmark)
    (w h : ℚ) : List OverlayCmd :=
  (match leftAnkle with
   | some lm => [OverlayCmd.footPoint (lm.x * w) (lm.y * h) ("L👣") ("#00ff00")]
   | none => []) ++
  (match rightAnkle with
   | some lm => [OverlayCmd.footPoint (lm.x * w) (lm.y * h) ("R👣") ("#00ff00")]
   | none => []) ++
  (match leftFootIndex with
   | some lm => [OverlayCmd.footPoint (lm.x * w) (lm.y * h) ("L👟") ("#ff6b6b")]
   | none => []) ++
  (match rightFootIndex with
   | some lm => [OverlayCmd.footPoint (lm.x * w) (lm.y * h) ("R👟") ("#ff6b6b")]
   | none => []) ++
  (match rightAnkle, rightFootIndex with
   | some a, some f => [OverlayCmd.connection (a.x * w) (a.y * h) (f.x * w) (f.y * h) ("#00ff00")]
   | _, _ =>
     match leftAnkle, leftFootIndex with
     | some a, some f => [OverlayCmd.connection (a.x * w) (a.y * h) (f.x * w) (f.y * h) ("#00ff00")]
     | _, _ => [])

/-- Foot choice of `positionARShoe` (lines 1090-1104): prefer the right
foot when its ankle and foot index are available, else the left. -/
def selectFoot (leftAnkle rightAnkle leftFootIndex rightFootIndex : Option Landmark) :
    Option (Landmark × Landmark × Bool) :=
  match rightAnkle, rightFootIndex with
  | some a, some f => some (a, f, false)
  | _, _ =>
    match leftAnkle, leftFootIndex with
    | some a, some f => some (a, f, true)
    | _, _ => none

/-- Body of `positionARShoe` for a selected foot (lines 1106-1164):
midpoint mapped by factor 6 with Y inverted, forward offset of 0.2 of
the ankle-to-toe vector, fixed depth -2, rotation `-atan2`, the left
foot mirrored by `rotation.y = Math.PI`, scale clamped to [0.05, 0.15]. -/
def applyFootPlacement {R : Type} [LinearOrderedField R] (M : MathOps R)
    (ankle footIndex : Landmark) (isLeftFoot : Bool) (m : ShoeModel R) : ShoeModel R :=
  let footCenterX := (ankle.x + footIndex.x) / 2
  let footCenterY := (ankle.y + footIndex.y) / 2
  let screenX := (footCenterX - 1/2) * 6
  let screenY := -(footCenterY - 1/2) * 6
  let footForwardOffset : ℚ := 1/5
  let offsetX := (footIndex.x - ankle.x) * footForwardOffset
  let offsetY := -(footIndex.y - ankle.y) * footForwardOffset
  let finalX := screenX + offsetX
  let finalY := screenY + offsetY
  let finalZ : ℚ := -2
  let m1 : ShoeModel R := { m with posX := finalX, posY := finalY, posZ := finalZ }
  let footAngle := M.atan2 (footIndex.y - ankle.y) (footIndex.x - ankle.x)
  let m2 : ShoeModel R := { m1 with rotX := 0, rotY := 0, rotZ := -footAngle }
  let m3 : ShoeModel R := if isLeftFoot then { m2 with rotY := M.pi } else { m2 with rotY := 0 }
  let footLength := M.sqrt ((footIndex.x - ankle.x) ^ 2 + (footIndex.y - ankle.y) ^ 2)
  let dynamicScale := max (1/20 : R) (min (3/20 : R) (footLength * 2))
  { m3 with scaleX := dynamicScale, scaleY := dynamicScale, scaleZ := dynamicScale,
            visible := true }

/-- `positionARShoe` (lines 1087-1169): no-op when the model or the AR
camera is missing; otherwise place and show the shoe for the selected
foot, or hide it when no complete foot is available. -/
def positionARShoe {R : Type} [LinearOrderedField R] (M : MathOps R)
    (leftAnkle rightAnkle leftFootIndex rightFootIndex : Option Landmark)
    (s : ARState R) : ARState R :=
  match s.arShoeModel, s.arCamera with
  | some m, true =>
    match selectFoot leftAnkle rightAnkle leftFootIndex rightFootIndex with
    | some (ankle, footIndex, isLeftFoot) =>
      { s with arShoeModel := some (applyFootPlacement M ankle footIndex isLeftFoot m) }
    | none => { s with arShoeModel := some { m with visible := false } }
  | _, _ => s

/-- The `else` path of `onPoseResults` (lines 969-979): searching status,
shoe hidden, "no pose" hint drawn. -/
def noPosePath {R : Type} (s : ARState R) : ARState R :=
  let s1 := updateARStatus ("Looking for pose...") ("detecting") s
  let s2 := { s1 with arShoeModel := hideShoe s1.arShoeModel }
  { s2 with overlay := s2.overlay ++ [OverlayCmd.noPoseHint] }

/-- The landmark-list path of `onPoseResults` (lines 914-968). -/
def withPose {R : Type} [LinearOrderedField R] (M : MathOps R)
    (landmarks : List Landmark) (s : ARState R) : ARState R :=
  if hasGoodLeftFoot landmarks ∨ hasGoodRightFoot landmarks then
    if hasCompleteRightFoot landmarks ∨ hasCompleteLeftFoot landmarks then
      let s1 := updateARStatus ("Shoe positioned! Try moving your foot 👟✨") ("success") s
      let draws := drawFootIndicators (leftAnkleOf landmarks) (rightAnkleOf landmarks)
        (leftFootIndexOf landmarks) (rightFootIndexOf landmarks) s1.canvasW s1.canvasH
      let s2 := { s1 with overlay := s1.overlay ++ draws }
      positionARShoe M (leftAnkleOf landmarks) (rightAnkleOf landmarks)
        (leftFootIndexOf landmarks) (rightFootIndexOf landmarks) s2
    else
      let s1 := updateARStatus ("Feet detected - show ankle and toes clearly 👣") ("detecting") s
      let draws := drawFootIndicators (leftAnkleOf landmarks) (rightAnkleOf landmarks)
        (leftFootIndexOf landmarks) (rightFootIndexOf landmarks) s1.canvasW s1.canvasH
      { s1 with overlay := s1.overlay ++ draws }
  else
    let s1 := updateARStatus ("Point camera at your feet - move closer 👣") ("detecting") s
    let s2 := { s1 with arShoeModel := hideShoe s1.arShoeModel }
    { s2 with overlay := s2.overlay ++ [OverlayCmd.poseHint] }

/-- `onPoseResults` (lines 903-980): no-op unless the session is active
and the overlay exists; clear the overlay; then branch on whether a
landmark list of length at least 33 arrived. -/
def onPoseResults {R : Type} [LinearOrderedField R] (M : MathOps R)
    (results : PoseResults) (s : ARState R) : ARState R :=
  if s.isARMode = false ∨ s.hasOverlay = false then s
  else
    let s0 := { s with overlay := ([] : List OverlayCmd) }
    match results.poseLandmarks with
    | some landmarks =>
      if 33 ≤ landmarks.length then withPose M landmarks s0 else noPosePath s0
    | none => noPosePath s0

/-- `exitARMode` (lines 734-752): stop the camera stream when present,
hide the AR interface, reset the status line, deactivate the session. -/
def exitARMode {R : Type} (s : ARState R) : ARState R :=
  let s1 := if s.videoStream then { s with videoStream := false } else s
  let s2 := { s1 with arInterfaceVisible := false }
  let s3 := updateARStatus ("Looking for feet...") ("") s2
  { s3 with isARMode := false }

/-- Placement X coordinate as claim C5 words it: the 0.2 forward offset
carrying the same factor-6 mapping as the midpoint term. -/
def claimedOffsetPosX (ankle footIndex : Landmark) : ℚ :=
  ((ankle.x + footIndex.x) / 2 - 1/2) * 6 + (footIndex.x - ankle.x) * (1/5) * 6

/-- A landmark that fails validation (confidence 0). -/
def lmHidden : Landmark := ⟨0, 0, 0, 0⟩

/-- A landmark at `(x, y)` that passes validation (confidence 0.9). -/
def lmVis (x y : ℚ) : Landmark := ⟨x, y, 0, 9/10⟩

/-- A 33-entry landmark list with every entry failing validation. -/
def baseLms : List Landmark := List.replicate 33 lmHidden

/-- Right ankle and right heel visible, nothing else: a 2-of-3 right
foot with no complete side. -/
def lmsRightTwo : List Landmark :=
  (baseLms.set 28 (lmVis (1/2) (3/5))).set 30 (lmVis (1/2) (13/20))

/-- Right ankle and right foot index visible: a complete right foot. -/
def lmsRightFull : List Landmark :=
  (baseLms.set 28 (lmVis (1/2) (3/5))).set 32 (lmVis (11/20) (31/50))

/-- Both feet complete; agrees with `lmsRightFull` on the right side. -/
def lmsBothFull : List Landmark :=
  (lmsRightFull.set 27 (lmVis (3/10) (1/2))).set 31 (lmVis (2/5) (1/2))

/-- A concrete hidden shoe model over the rationals. -/
def shoeQ : ShoeModel ℚ := ⟨0, 0, 0, 0, 0, 0, 1/10, 1/10, 1/10, false⟩

/-- The same shoe model, visible. -/
def shoeQVis : ShoeModel ℚ := { shoeQ with visible := true }

/-- Concrete stand-in math operations over the rationals. -/
def mathQ : MathOps ℚ := ⟨fun _ => 0, fun _ _ => 0, 0⟩

/-- An active AR session with a loaded (hidden) shoe model. -/
def stateActive : ARState ℚ :=
  { isARMode := true, hasOverlay := true, arCamera := true, videoStream := true,
    arInterfaceVisible := true, canvasW := 1280, canvasH := 720, overlay := [],
    statusMessage := "Looking for feet...", statusType := "", arShoeModel := some shoeQ }

/-- An active AR session whose shoe model is currently visible. -/
def stateShoeVisible : ARState ℚ := { stateActive with arShoeModel := some shoeQVis }

/-- Sample ankle landmark used for placement computations. -/
def lmA : Landmark := ⟨1/2, 1/2, 0, 9/10⟩

/-- Sample toe landmark used for placement computations. -/
def lmB : Landmark := ⟨3/5, 1/2, 0, 9/10⟩

/-- Validation only looks at the list entry at the given index. -/
theorem getValidated_congr {l1 l2 : List Landmark} {i : ℕ}
    (h : l1.get? i = l2.get? i) : getValidated l1 i = getValidated l2 i := by
  unfold getValidated
  rw [h]

/-- An ankle and a toe that passed validation already give a 2-of-3 count. -/
theorem footCount_ge_two {a c : Option Landmark} (b : Option Landmark)
    (ha : a.isSome = true) (hc : c.isSome = true) : 2 ≤ footCount a b c := by
  obtain ⟨x, hx⟩ := Option.isSome_iff_exists.mp ha
  obtain ⟨z, hz⟩ := Option.isSome_iff_exists.mp hc
  cases b <;> simp [footCount, hx, hz]

/-- A complete right foot is a good right foot. -/
theorem right_good_of_complete {l : List Landmark}
    (h : hasCompleteRightFoot l) : hasGoodRightFoot l :=
  footCount_ge_two (rightHeelOf l) h.1 h.2

/-- A complete left foot is a good left foot. -/
theorem left_good_of_complete {l : List Landmark}
    (h : hasCompleteLeftFoot l) : hasGoodLeftFoot l :=
  footCount_ge_two (leftHeelOf l) h.1 h.2

/-- A complete side implies the good-feet guard of line 934 passes. -/
theorem good_of_complete {l : List Landmark}
    (h : hasCompleteRightFoot l ∨ hasCompleteLeftFoot l) :
    hasGoodLeftFoot l ∨ hasGoodRightFoot l :=
  h.elim (fun hr => Or.inr (right_good_of_complete hr))
    (fun hl => Or.inl (left_good_of_complete hl))

/-- The hidden-shoe update never reports a visible shoe. -/
theorem hideShoe_not_visible {R : Type} (mo : Option (ShoeModel R)) :
    (hideShoe mo).map ShoeModel.visible ≠ some true := by
  cases mo <;> simp [hideShoe]

/-- `positionARShoe` only writes the `arShoeModel` field. -/
theorem positionARShoe_eq_update {R : Type} [LinearOrderedField R] (M : MathOps R)
    (la ra lf rf : Option Landmark) (s : ARState R) :
    positionARShoe M la ra lf rf s =
      { s with arShoeModel :=
          match s.arShoeModel, s.arCamera with
          | some m, true =>
            match selectFoot la ra lf rf with
            | some (a, f, lft) => some (applyFootPlacement M a f lft m)
            | none => some { m with visible := false }
          | _, _ => s.arShoeModel } := by
  obtain ⟨mode, ov, cam, vs, ui, w, h, olay, msg, ty, mo⟩ := s
  cases mo <;> cases cam <;>
    rcases h3 : selectFoot la ra lf rf with _ | ⟨a, f, lft⟩ <;>
    simp [positionARShoe, h3]

/-- Frame handler is a no-op when the session is inactive or the overlay
is missing (line 904). -/
theorem onPose_inactive {R : Type} [LinearOrderedField R] (M : MathOps R)
    (r : PoseResults) (s : ARState R)
    (h : s.isARMode = false ∨ s.hasOverlay = false) :
    onPoseResults M r s = s := by
  unfold onPoseResults
  rw [if_pos h]

/-- Frame handler on an absent landmark list. -/
theorem onPose_nil {R : Type} [LinearOrderedField R] (M : MathOps R)
    (r : PoseResults) (s : ARState R)
    (hm : s.isARMode = true) (ho : s.hasOverlay = true)
    (hr : r.poseLandmarks = none) :
    onPoseResults M r s = noPosePath { s with overlay := [] } := by
  simp [onPoseResults, hm, ho, hr]

/-- Frame handler on a landmark list shorter than 33 entries. -/
theorem onPose_short {R : Type} [LinearOrderedField R] (M : MathOps R)
    (r : PoseResults) (s : ARState R) (l : List Landmark)
    (hm : s.isARMode = true) (ho : s.hasOverlay = true)
    (hr : r.poseLandmarks = some l) (hlen : l.length < 33) :
    onPoseResults M r s = noPosePath { s with overlay := [] } := by
  have hn : ¬ 33 ≤ l.length := by omega
  simp [onPoseResults, hm, ho, hr, hn]

/-- Frame handler on a full-length landmark list. -/
theorem onPose_full {R : Type} [LinearOrderedField R] (M : MathOps R)
    (r : PoseResults) (s : ARState R) (l : List Landmark)
    (hm : s.isARMode = true) (ho : s.hasOverlay = true)
    (hr : r.poseLandmarks = some l) (hlen : 33 ≤ l.length) :
    onPoseResults M r s = withPose M l { s with overlay := [] } := by
  simp [onPoseResults, hm, ho, hr, hlen]

/-- The no-good-feet branch of `withPose` (lines 958-968). -/
theorem withPose_noGood_eq {R : Type} [LinearOrderedField R] (M : MathOps R)
    (l : List Landmark) (s : ARState R)
    (hng : ¬ (hasGoodLeftFoot l ∨ hasGoodRightFoot l)) :
    withPose M l s =
      { s with statusMessage := "Point camera at your feet - move closer 👣",
               statusType := "detecting",
               arShoeModel := hideShoe s.arShoeModel,
               overlay := s.overlay ++ [OverlayCmd.poseHint] } := by
  unfold withPose
  rw [if_neg hng]
  rfl

/-- The good-but-incomplete branch of `withPose` (lines 947-952). -/
theorem withPose_incomplete_eq {R : Type} [LinearOrderedField R] (M : MathOps R)
    (l : List Landmark) (s : ARState R)
    (hg : hasGoodLeftFoot l ∨ hasGoodRightFoot l)
    (hnr : ¬ hasCompleteRightFoot l) (hnl : ¬ hasCompleteLeftFoot l) :
    withPose M l s =
      { s with statusMessage := "Feet detected - show ankle and toes clearly 👣",
               statusType := "detecting",
               overlay := s.overlay ++
                 drawFootIndicators (leftAnkleOf l) (rightAnkleOf l)
                   (leftFootIndexOf l) (rightFootIndexOf l) s.canvasW s.canvasH } := by
  unfold withPose
  rw [if_pos hg, if_neg (fun h => h.elim hnr hnl)]
  rfl

/-- The complete-foot branch of `withPose` (lines 939-946). -/
theorem withPose_complete_eq {R : Type} [LinearOrderedField R] (M : MathOps R)
    (l : List Landmark) (s : ARState R)
    (hc : hasCompleteRightFoot l ∨ hasCompleteLeftFoot l) :
    withPose M l s =
      positionARShoe M (leftAnkleOf l) (rightAnkleOf l)
        (leftFootIndexOf l) (rightFootIndexOf l)
        { s with statusMessage := "Shoe positioned! Try moving your foot 👟✨",
                 statusType := "success",
                 overlay := s.overlay ++
                   drawFootIndicators (leftAnkleOf l) (rightAnkleOf l)
                     (leftFootIndexOf l) (rightFootIndexOf l) s.canvasW s.canvasH } := by
  unfold withPose
  rw [if_pos (good_of_complete hc), if_pos hc]
  rfl

/-- C2: for a landmark list of length at least 33 and any foot index
27..32, the validator returns the entry unchanged exactly when its
visibility is strictly greater than 0.5, and absent when the visibility
is at most 0.5 (so visibility exactly 0.5 yields absent). -/
theorem validator_threshold_contract (landmarks : List Landmark)
    (hlen : 33 ≤ landmarks.length) (idx : ℕ) (h27 : 27 ≤ idx) (h32 : idx ≤ 32) :
    ∃ lm : Landmark, landmarks.get? idx = some lm ∧
      ((1/2 : ℚ) < lm.visibility ↔ getValidated landmarks idx = some lm) ∧
      (lm.visibility ≤ 1/2 ↔ getValidated landmarks idx = none) := by
  rcases hq : landmarks.get? idx with _ | lm
  · rw [List.get?_eq_none] at hq
    omega
  · refine ⟨lm, rfl, ?_, ?_⟩
    · constructor
      · intro h
        simp only [getValidated, hq]
        rw [if_pos h]
      · intro h
        by_contra hc
        simp only [getValidated, hq] at h
        rw [if_neg hc] at h
        exact Option.noConfusion h
    · constructor
      · intro h
        simp only [getValidated, hq]
        rw [if_neg (not_lt.mpr h)]
      · intro h
        by_contra hc
        push_neg at hc
        simp only [getValidated, hq] at h
        rw [if_pos hc] at h
        exact Option.noConfusion h

/-- C2 witness: the contract evaluated at index 28 of a concrete
33-entry landmark list. -/
theorem validator_threshold_contract_witness :
    33 ≤ lmsRightFull.length ∧ 27 ≤ 28 ∧ 28 ≤ 32 ∧
      (∃ lm : Landmark, lmsRightFull.get? 28 = some lm ∧
        ((1/2 : ℚ) < lm.visibility ↔ getValidated lmsRightFull 28 = some lm) ∧
        (lm.visibility ≤ 1/2 ↔ getValidated lmsRightFull 28 = none)) :=
  ⟨by decide, by decide, by decide,
    validator_threshold_contract lmsRightFull (by decide) 28 (by decide) (by decide)⟩

/-- C4: foot selection prefers a complete right foot, falls back to a
complete left foot, and selects nothing otherwise; lists that agree on
the ankle and toe entries (indices 27, 28, 31, 32) select identically,
so the heel entries never affect the selection. -/
theorem foot_selection_prefers_right :
    (∀ (la ra lf rf : Option Landmark) (a f : Landmark),
      ra = some a → rf = some f → selectFoot la ra lf rf = some (a, f, false)) ∧
    (∀ (la ra lf rf : Option Landmark) (a f : Landmark),
      (ra = none ∨ rf = none) → la = some a → lf = some f →
        selectFoot la ra lf rf = some (a, f, true)) ∧
    (∀ (la ra lf rf : Option Landmark),
      (ra = none ∨ rf = none) → (la = none ∨ lf = none) →
        selectFoot la ra lf rf = none) ∧
    (∀ (l1 l2 : List Landmark),
      l1.get? 27 = l2.get? 27 → l1.get? 28 = l2.get? 28 →
      l1.get? 31 = l2.get? 31 → l1.get? 32 = l2.get? 32 →
        selectFoot (leftAnkleOf l1) (rightAnkleOf l1) (leftFootIndexOf l1) (rightFootIndexOf l1)
          = selectFoot (leftAnkleOf l2) (rightAnkleOf l2) (leftFootIndexOf l2) (rightFootIndexOf l2)) := by
  refine ⟨?_, ?_, ?_, ?_⟩
  · intro la ra lf rf a f ha hf
    subst ha
    subst hf
    rfl
  · intro la ra lf rf a f hd ha hf
    subst ha
    subst hf
    rcases hd with h | h <;> subst h
    · cases rf <;> rfl
    · cases ra <;> rfl
  · intro la ra lf rf hd hd2
    rcases hd with h | h <;> subst h <;> rcases hd2 with h2 | h2 <;> subst h2
    · cases rf <;> cases lf <;> rfl
    · cases rf <;> cases la <;> rfl
    · cases ra <;> cases lf <;> rfl
    · cases ra <;> cases la <;> rfl
  · intro l1 l2 e27 e28 e31 e32
    unfold leftAnkleOf rightAnkleOf leftFootIndexOf rightFootIndexOf
    rw [getValidated_congr e27, getValidated_congr e28,
      getValidated_congr e31, getValidated_congr e32]

/-- C4 witness: with both sides complete the right foot is chosen; with
only the left side complete the left foot is chosen; with neither,
nothing; and a heel-only change leaves the selection unchanged. -/
theorem foot_selection_prefers_right_witness :
    selectFoot (some lmA) (some lmA) (some lmB) (some lmB) = some (lmA, lmB, false) ∧
    selectFoot (some lmA) none (some lmB) (some lmB) = some (lmA, lmB, true) ∧
    selectFoot none none none (some lmB) = none ∧
    selectFoot (leftAnkleOf lmsRightFull) (rightAnkleOf lmsRightFull)
        (leftFootIndexOf lmsRightFull) (rightFootIndexOf lmsRightFull)
      = selectFoot (leftAnkleOf (lmsRightFull.set 30 lmHidden))
        (rightAnkleOf (lmsRightFull.set 30 lmHidden))
        (leftFootIndexOf (lmsRightFull.set 30 lmHidden))
        (rightFootIndexOf (lmsRightFull.set 30 lmHidden)) :=
  ⟨foot_selection_prefers_right.1 (some lmA) (some lmA) (some lmB) (some lmB) lmA lmB rfl rfl,
   foot_selection_prefers_right.2.1 (some lmA) none (some lmB) (some lmB) lmA lmB
     (Or.inl rfl) rfl rfl,
   foot_selection_prefers_right.2.2.1 none none none (some lmB) (Or.inl rfl) (Or.inl rfl),
   foot_selection_prefers_right.2.2.2 lmsRightFull (lmsRightFull.set 30 lmHidden)
     (by simp [lmsRightFull, baseLms]) (by simp [lmsRightFull, baseLms])
     (by simp [lmsRightFull, baseLms]) (by simp [lmsRightFull, baseLms])⟩

/-- C5 counterexample: at ankle x = 0.5, toe x = 0.6 the code's
placement X is 0.32 while the claimed factor-6 offset would give 0.42,
so the claimed position formula does not match `positionARShoe`. -/
theorem placement_offset_claim_cex :
    (applyFootPlacement mathQ lmA lmB false shoeQ).posX ≠ claimedOffsetPosX lmA lmB := by
  norm_num [applyFootPlacement, claimedOffsetPosX, lmA, lmB, mathQ, shoeQ]

/-- C5 amended: the placement position is the factor-6 mapped midpoint
plus a forward offset of 0.2 of the ankle-to-toe vector taken in
normalized coordinates with Y negated (the offset is not scaled by 6),
at constant depth Z = -2. -/
theorem placement_position_formula (R : Type) [LinearOrderedField R] (M : MathOps R)
    (ankle footIndex : Landmark) (isLeftFoot : Bool) (m : ShoeModel R) :
    (applyFootPlacement M ankle footIndex isLeftFoot m).posX
        = ((ankle.x + footIndex.x) / 2 - 1/2) * 6 + (footIndex.x - ankle.x) * (1/5) ∧
    (applyFootPlacement M ankle footIndex isLeftFoot m).posY
        = -((ankle.y + footIndex.y) / 2 - 1/2) * 6 + -(footIndex.y - ankle.y) * (1/5) ∧
    (applyFootPlacement M ankle footIndex isLeftFoot m).posZ = -2 := by
  cases isLeftFoot <;> exact ⟨rfl, rfl, rfl⟩

/-- C6: the in-plane rotation is the negated `atan2` of the ankle-to-toe
vector, and the Y rotation is a 180-degree flip exactly for the left
foot (0 for the right foot). -/
theorem placement_rotation_mirror (R : Type) [LinearOrderedField R] (M : MathOps R)
    (ankle footIndex : Landmark) (isLeftFoot : Bool) (m : ShoeModel R) :
    (applyFootPlacement M ankle footIndex isLeftFoot m).rotZ
        = -(M.atan2 (footIndex.y - ankle.y) (footIndex.x - ankle.x)) ∧
    (applyFootPlacement M ankle footIndex isLeftFoot m).rotY
        = (if isLeftFoot then M.pi else 0) ∧
    (applyFootPlacement M ankle footIndex isLeftFoot m).rotX = 0 := by
  cases isLeftFoot <;> exact ⟨rfl, rfl, rfl⟩

/-- C7: with `sqrt` interpreted as the real square root, the placement
scale is `clamp(footLength * 2, 0.05, 0.15)` for the Euclidean
ankle-to-toe distance, is applied uniformly to the three axes, and it
always lies in the closed interval [0.05, 0.15]. -/
theorem placement_scale_clamped (M : MathOps ℝ)
    (hs : ∀ q : ℚ, M.sqrt q = Real.sqrt (q : ℝ))
    (ankle footIndex : Landmark) (isLeftFoot : Bool) (m : ShoeModel ℝ) :
    (applyFootPlacement M ankle footIndex isLeftFoot m).scaleX
        = max (1/20) (min (3/20)
            (Real.sqrt (((footIndex.x : ℝ) - (ankle.x : ℝ)) ^ 2
              + ((footIndex.y : ℝ) - (ankle.y : ℝ)) ^ 2) * 2)) ∧
    (applyFootPlacement M ankle footIndex isLeftFoot m).scaleY
        = (applyFootPlacement M ankle footIndex isLeftFoot m).scaleX ∧
    (applyFootPlacement M ankle footIndex isLeftFoot m).scaleZ
        = (applyFootPlacement M ankle footIndex isLeftFoot m).scaleX ∧
    (1/20 : ℝ) ≤ (applyFootPlacement M ankle footIndex isLeftFoot m).scaleX ∧
    (applyFootPlacement M ankle footIndex isLeftFoot m).scaleX ≤ 3/20 := by
  have hx : (applyFootPlacement M ankle footIndex isLeftFoot m).scaleX
      = max (1/20) (min (3/20)
          (M.sqrt ((footIndex.x - ankle.x) ^ 2 + (footIndex.y - ankle.y) ^ 2) * 2)) := by
    cases isLeftFoot <;> rfl
  have hsq : M.sqrt ((footIndex.x - ankle.x) ^ 2 + (footIndex.y - ankle.y) ^ 2)
      = Real.sqrt (((footIndex.x : ℝ) - (ankle.x : ℝ)) ^ 2
          + ((footIndex.y : ℝ) - (ankle.y : ℝ)) ^ 2) := by
    rw [hs]
    congr 1
    push_cast
    ring
  refine ⟨by rw [hx, hsq], by cases isLeftFoot <;> rfl, by cases isLeftFoot <;> rfl, ?_, ?_⟩
  · rw [hx]
    exact le_max_left _ _
  · rw [hx]
    exact max_le (by norm_num) (min_le_left _ _)

/-- C7 witness: the clamp bounds evaluated with the real square root at
a degenerate zero-length foot. -/
theorem placement_scale_clamped_witness :
    (1/20 : ℝ) ≤ (applyFootPlacement ⟨fun q => Real.sqrt (q : ℝ), fun _ _ => 0, 0⟩
        lmA lmA false ⟨0, 0, 0, 0, 0, 0, 0, 0, 0, false⟩).scaleX ∧
    (applyFootPlacement ⟨fun q => Real.sqrt (q : ℝ), fun _ _ => 0, 0⟩
        lmA lmA false ⟨0, 0, 0, 0, 0, 0, 0, 0, 0, false⟩).scaleX ≤ 3/20 :=
  ⟨(placement_scale_clamped _ (fun _ => rfl) lmA lmA false _).2.2.2.1,
   (placement_scale_clamped _ (fun _ => rfl) lmA lmA false _).2.2.2.2⟩

/-- C8: the placement written for a selected foot is a pure function of
the two landmarks and the side flag; it does not depend on the prior
state of the tracked object, so identical inputs give identical
transforms with no hidden per-frame memory. -/
theorem placement_prior_state_independent (R : Type) [LinearOrderedField R] (M : MathOps R)
    (ankle footIndex : Landmark) (isLeftFoot : Bool) (m1 m2 : ShoeModel R) :
    applyFootPlacement M ankle footIndex isLeftFoot m1
      = applyFootPlacement M ankle footIndex isLeftFoot m2 := by
  cases isLeftFoot <;> rfl

/-- C9 counterexample: exiting the session with a visible tracked object
leaves the object's visibility flag set, so session exit does not hide
the tracked object itself. -/
theorem session_exit_hides_claim_cex :
    (exitARMode stateShoeVisible).arShoeModel.map ShoeModel.visible = some true := by
  decide

/-- C9 amended: session exit stops the camera stream, hides the AR
interface, resets the status line to the searching message, deactivates
the session and leaves the tracked object's state (including its
visibility flag) unchanged; every frame callback delivered after exit
leaves the whole session state unchanged. -/
theorem session_exit_teardown (R : Type) [LinearOrderedField R] (s : ARState R) :
    (exitARMode s).videoStream = false ∧
    (exitARMode s).arInterfaceVisible = false ∧
    (exitARMode s).statusMessage = "Looking for feet..." ∧
    (exitARMode s).statusType = "" ∧
    (exitARMode s).isARMode = false ∧
    (exitARMode s).arShoeModel = s.arShoeModel ∧
    (∀ (M : MathOps R) (results : PoseResults),
      onPoseResults M results (exitARMode s) = exitARMode s) := by
  have hfields : (exitARMode s).videoStream = false ∧
      (exitARMode s).arInterfaceVisible = false ∧
      (exitARMode s).statusMessage = "Looking for feet..." ∧
      (exitARMode s).statusType = "" ∧
      (exitARMode s).isARMode = false ∧
      (exitARMode s).arShoeModel = s.arShoeModel := by
    by_cases h : s.videoStream = true <;>
      simp [exitARMode, updateARStatus, h]
  refine ⟨hfields.1, hfields.2.1, hfields.2.2.1, hfields.2.2.2.1, hfields.2.2.2.2.1,
    hfields.2.2.2.2.2, ?_⟩
  intro M results
  exact onPose_inactive M results (exitARMode s) (Or.inl hfields.2.2.2.2.1)

/-- A failed inactivity guard gives an active session with an overlay. -/
theorem active_of_not_guard {R : Type} {s : ARState R}
    (h : ¬ (s.isARMode = false ∨ s.hasOverlay = false)) :
    s.isARMode = true ∧ s.hasOverlay = true := by
  constructor
  · cases hb : s.isARMode
    · exact absurd (Or.inl hb) h
    · rfl
  · cases hb : s.hasOverlay
    · exact absurd (Or.inr hb) h
    · rfl

/-- Validation outcome on the all-hidden sample list: every foot landmark
is absent. -/
theorem baseLms_validated :
    leftAnkleOf baseLms = none ∧ rightAnkleOf baseLms = none ∧
    leftHeelOf baseLms = none ∧ rightHeelOf baseLms = none ∧
    leftFootIndexOf baseLms = none ∧ rightFootIndexOf baseLms = none := by
  refine ⟨?_, ?_, ?_, ?_, ?_, ?_⟩ <;>
    norm_num [leftAnkleOf, rightAnkleOf, leftHeelOf, rightHeelOf, leftFootIndexOf,
      rightFootIndexOf, getValidated, baseLms, lmHidden]

/-- Validation outcome on the ankle-and-heel sample list. -/
theorem lmsRightTwo_validated :
    leftAnkleOf lmsRightTwo = none ∧ rightAnkleOf lmsRightTwo = some (lmVis (1/2) (3/5)) ∧
    leftHeelOf lmsRightTwo = none ∧ rightHeelOf lmsRightTwo = some (lmVis (1/2) (13/20)) ∧
    leftFootIndexOf lmsRightTwo = none ∧ rightFootIndexOf lmsRightTwo = none := by
  refine ⟨?_, ?_, ?_, ?_, ?_, ?_⟩ <;>
    norm_num [leftAnkleOf, rightAnkleOf, leftHeelOf, rightHeelOf, leftFootIndexOf,
      rightFootIndexOf, getValidated, lmsRightTwo, baseLms, lmHidden, lmVis]

/-- Validation outcome on the complete-right-foot sample list. -/
theorem lmsRightFull_validated :
    leftAnkleOf lmsRightFull = none ∧
    rightAnkleOf lmsRightFull = some (lmVis (1/2) (3/5)) ∧
    leftHeelOf lmsRightFull = none ∧ rightHeelOf lmsRightFull = none ∧
    leftFootIndexOf lmsRightFull = none ∧
    rightFootIndexOf lmsRightFull = some (lmVis (11/20) (31/50)) := by
  refine ⟨?_, ?_, ?_, ?_, ?_, ?_⟩ <;>
    norm_num [leftAnkleOf, rightAnkleOf, leftHeelOf, rightHeelOf, leftFootIndexOf,
      rightFootIndexOf, getValidated, lmsRightFull, baseLms, lmHidden, lmVis]

/-- The all-hidden list has no good foot. -/
theorem baseLms_noGood :
    ¬ hasGoodLeftFoot baseLms ∧ ¬ hasGoodRightFoot baseLms := by
  obtain ⟨g1, g2, g3, g4, g5, g6⟩ := baseLms_validated
  constructor <;>
    simp [leftFootCount, rightFootCount, footCount, g1, g2, g3, g4, g5, g6]

/-- The ankle-and-heel list: the right side is good, nothing is complete. -/
theorem lmsRightTwo_partial_facts :
    hasGoodRightFoot lmsRightTwo ∧
    ¬ hasCompleteRightFoot lmsRightTwo ∧ ¬ hasCompleteLeftFoot lmsRightTwo := by
  obtain ⟨g1, g2, g3, g4, g5, g6⟩ := lmsRightTwo_validated
  refine ⟨?_, ?_, ?_⟩
  · simp [rightFootCount, footCount, g2, g4, g6]
  · simp [g6]
  · simp [g1]

/-- The complete-right-foot list has a complete right foot. -/
theorem lmsRightFull_complete : hasCompleteRightFoot lmsRightFull := by
  obtain ⟨g1, g2, g3, g4, g5, g6⟩ := lmsRightFull_validated
  exact ⟨by rw [g2]; rfl, by rw [g6]; rfl⟩

/-- C3: the frame handler's derived status is Searching when the
landmark list is absent or shorter than 33; PoseFound for a full-length
list with no good side; FeetPartial (`FeetIncomplete`) when a side is
good but none is complete; FeetLocked when a side is complete. -/
theorem status_derivation (R : Type) [LinearOrderedField R] (M : MathOps R)
    (results : PoseResults) (s : ARState R)
    (hmode : s.isARMode = true) (hov : s.hasOverlay = true) :
    (results.poseLandmarks = none →
      derivedStatus (onPoseResults M results s).statusMessage = TrackingStatus.Searching) ∧
    (∀ l : List Landmark, results.poseLandmarks = some l → l.length < 33 →
      derivedStatus (onPoseResults M results s).statusMessage = TrackingStatus.Searching) ∧
    (∀ l : List Landmark, results.poseLandmarks = some l → l.length = 33 →
      ¬ hasGoodLeftFoot l → ¬ hasGoodRightFoot l →
      derivedStatus (onPoseResults M results s).statusMessage = TrackingStatus.PoseFound) ∧
    (∀ l : List Landmark, results.poseLandmarks = some l → l.length = 33 →
      (hasGoodLeftFoot l ∨ hasGoodRightFoot l) →
      ¬ hasCompleteLeftFoot l → ¬ hasCompleteRightFoot l →
      derivedStatus (onPoseResults M results s).statusMessage = TrackingStatus.FeetIncomplete) ∧
    (∀ l : List Landmark, results.poseLandmarks = some l → l.length = 33 →
      (hasCompleteRightFoot l ∨ hasCompleteLeftFoot l) →
      derivedStatus (onPoseResults M results s).statusMessage = TrackingStatus.FeetLocked) := by
  refine ⟨?_, ?_, ?_, ?_, ?_⟩
  · intro h
    rw [onPose_nil M results s hmode hov h]
    simp [noPosePath, updateARStatus, derivedStatus]
  · intro l hl hlen
    rw [onPose_short M results s l hmode hov hl hlen]
    simp [noPosePath, updateARStatus, derivedStatus]
  · intro l hl hlen hngL hngR
    rw [onPose_full M results s l hmode hov hl (by omega)]
    rw [withPose_noGood_eq M l _ (fun h => h.elim hngL hngR)]
    simp [derivedStatus]
  · intro l hl hlen hg hncL hncR
    rw [onPose_full M results s l hmode hov hl (by omega)]
    rw [withPose_incomplete_eq M l _ hg hncR hncL]
    simp [derivedStatus]
  · intro l hl hlen hc
    rw [onPose_full M results s l hmode hov hl (by omega)]
    rw [withPose_complete_eq M l _ hc, positionARShoe_eq_update]
    simp [derivedStatus]

/-- C3 witness: the four statuses evaluated on concrete frames delivered
to an active session. -/
theorem status_derivation_witness :
    derivedStatus (onPoseResults mathQ ⟨none⟩ stateActive).statusMessage
        = TrackingStatus.Searching ∧
    derivedStatus (onPoseResults mathQ ⟨some []⟩ stateActive).statusMessage
        = TrackingStatus.Searching ∧
    derivedStatus (onPoseResults mathQ ⟨some baseLms⟩ stateActive).statusMessage
        = TrackingStatus.PoseFound ∧
    derivedStatus (onPoseResults mathQ ⟨some lmsRightTwo⟩ stateActive).statusMessage
        = TrackingStatus.FeetIncomplete ∧
    derivedStatus (onPoseResults mathQ ⟨some lmsRightFull⟩ stateActive).statusMessage
        = TrackingStatus.FeetLocked :=
  ⟨(status_derivation ℚ mathQ ⟨none⟩ stateActive rfl rfl).1 rfl,
   (status_derivation ℚ mathQ ⟨some []⟩ stateActive rfl rfl).2.1 [] rfl (by decide),
   (status_derivation ℚ mathQ ⟨some baseLms⟩ stateActive rfl rfl).2.2.1 baseLms rfl
     (by decide) baseLms_noGood.1 baseLms_noGood.2,
   (status_derivation ℚ mathQ ⟨some lmsRightTwo⟩ stateActive rfl rfl).2.2.2.1 lmsRightTwo rfl
     (by decide) (Or.inr lmsRightTwo_partial_facts.1)
     lmsRightTwo_partial_facts.2.2 lmsRightTwo_partial_facts.2.1,
   (status_derivation ℚ mathQ ⟨some lmsRightFull⟩ stateActive rfl rfl).2.2.2.2 lmsRightFull rfl
     (by decide) (Or.inl lmsRightFull_complete)⟩

/-- C1 counterexample: a frame whose only candidate is partial (right
ankle and heel, no toe) delivered while the tracked object is visible
leaves the object visible, so visibility after a frame does not require
that frame to carry a complete foot candidate. -/
theorem shoe_visibility_claim_cex :
    (onPoseResults mathQ ⟨some lmsRightTwo⟩ stateShoeVisible).arShoeModel.map ShoeModel.visible
        = some true ∧
    ¬ (hasCompleteRightFoot lmsRightTwo ∨ hasCompleteLeftFoot lmsRightTwo) := by
  constructor
  · rw [onPose_full mathQ _ stateShoeVisible lmsRightTwo rfl rfl rfl (by decide)]
    rw [withPose_incomplete_eq mathQ lmsRightTwo _ (Or.inr lmsRightTwo_partial_facts.1)
      lmsRightTwo_partial_facts.2.1 lmsRightTwo_partial_facts.2.2]
    rfl
  · intro h
    exact h.elim lmsRightTwo_partial_facts.2.1 lmsRightTwo_partial_facts.2.2

/-- C1 amended: a frame with a good but incomplete foot candidate
updates the status and redraws the overlay while leaving the tracked
object (including its visibility) unchanged; after any frame the object
is visible only if that frame carried a complete candidate or the
object was already visible before the frame. -/
theorem shoe_visibility_framewise (R : Type) [LinearOrderedField R] :
    (∀ (M : MathOps R) (results : PoseResults) (s : ARState R) (l : List Landmark),
      s.isARMode = true → s.hasOverlay = true →
      results.poseLandmarks = some l → 33 ≤ l.length →
      (hasGoodLeftFoot l ∨ hasGoodRightFoot l) →
      ¬ hasCompleteRightFoot l → ¬ hasCompleteLeftFoot l →
      ((onPoseResults M results s).arShoeModel = s.arShoeModel ∧
       (onPoseResults M results s).statusMessage
          = "Feet detected - show ankle and toes clearly 👣" ∧
       (onPoseResults M results s).overlay =
         drawFootIndicators (leftAnkleOf l) (rightAnkleOf l)
           (leftFootIndexOf l) (rightFootIndexOf l) s.canvasW s.canvasH)) ∧
    (∀ (M : MathOps R) (results : PoseResults) (s : ARState R),
      (onPoseResults M results s).arShoeModel.map ShoeModel.visible = some true →
      (∃ l : List Landmark, results.poseLandmarks = some l ∧ 33 ≤ l.length ∧
        (hasCompleteRightFoot l ∨ hasCompleteLeftFoot l)) ∨
      s.arShoeModel.map ShoeModel.visible = some true) := by
  constructor
  · intro M results s l hm ho hl hlen hg hncR hncL
    rw [onPose_full M results s l hm ho hl hlen]
    rw [withPose_incomplete_eq M l _ hg hncR hncL]
    exact ⟨rfl, rfl, rfl⟩
  · intro M results s h
    by_cases hguard : s.isARMode = false ∨ s.hasOverlay = false
    · rw [onPose_inactive M results s hguard] at h
      exact Or.inr h
    · obtain ⟨hm, ho⟩ := active_of_not_guard hguard
      rcases hr : results.poseLandmarks with _ | l
      · rw [onPose_nil M results s hm ho hr] at h
        exact absurd h (hideShoe_not_visible _)
      · by_cases hlen : 33 ≤ l.length
        · rw [onPose_full M results s l hm ho hr hlen] at h
          by_cases hc : hasCompleteRightFoot l ∨ hasCompleteLeftFoot l
          · exact Or.inl ⟨l, rfl, hlen, hc⟩
          · obtain ⟨hcr, hcl⟩ := not_or.mp hc
            by_cases hgood : hasGoodLeftFoot l ∨ hasGoodRightFoot l
            · rw [withPose_incomplete_eq M l _ hgood hcr hcl] at h
              exact Or.inr h
            · rw [withPose_noGood_eq M l _ hgood] at h
              exact absurd h (hideShoe_not_visible _)
        · rw [onPose_short M results s l hm ho hr (by omega)] at h
          exact absurd h (hideShoe_not_visible _)

/-- C1 witness: the amended behavior evaluated on a concrete partial
frame and a concrete complete frame. -/
theorem shoe_visibility_framewise_witness :
    ((onPoseResults mathQ ⟨some lmsRightTwo⟩ stateActive).arShoeModel
        = stateActive.arShoeModel ∧
     (onPoseResults mathQ ⟨some lmsRightTwo⟩ stateActive).statusMessage
        = "Feet detected - show ankle and toes clearly 👣" ∧
     (onPoseResults mathQ ⟨some lmsRightTwo⟩ stateActive).overlay =
       drawFootIndicators (leftAnkleOf lmsRightTwo) (rightAnkleOf lmsRightTwo)
         (leftFootIndexOf lmsRightTwo) (rightFootIndexOf lmsRightTwo)
         stateActive.canvasW stateActive.canvasH) ∧
    ((∃ l : List Landmark, (PoseResults.mk (some lmsRightFull)).poseLandmarks = some l ∧
        33 ≤ l.length ∧ (hasCompleteRightFoot l ∨ hasCompleteLeftFoot l)) ∨
      stateActive.arShoeModel.map ShoeModel.visible = some true) :=
  ⟨(shoe_visibility_framewise ℚ).1 mathQ ⟨some lmsRightTwo⟩ stateActive lmsRightTwo
     rfl rfl rfl (by decide) (Or.inr lmsRightTwo_partial_facts.1)
     lmsRightTwo_partial_facts.2.1 lmsRightTwo_partial_facts.2.2,
   (shoe_visibility_framewise ℚ).2 mathQ ⟨some lmsRightFull⟩ stateActive
     (by
       rw [onPose_full mathQ _ stateActive lmsRightFull rfl rfl rfl (by decide)]
       rw [withPose_complete_eq mathQ lmsRightFull _ (Or.inl lmsRightFull_complete)]
       rw [positionARShoe_eq_update]
       obtain ⟨g1, g2, g3, g4, g5, g6⟩ := lmsRightFull_validated
       simp only [g1, g2, g5, g6]
       rfl)⟩

/-- C10: when the validated right ankle and right toe are present, the
tracked-object state after a frame is unchanged under any change to the
left-side landmark entries (indices 27, 29, 31): the transform depends
only on the right side. -/
theorem right_noninterference (R : Type) [LinearOrderedField R] (M : MathOps R)
    (s : ARState R) (r1 r2 : PoseResults) (l1 l2 : List Landmark)
    (h1 : r1.poseLandmarks = some l1) (h2 : r2.poseLandmarks = some l2)
    (hlen1 : 33 ≤ l1.length) (hlen2 : 33 ≤ l2.length)
    (e28 : l1.get? 28 = l2.get? 28) (e30 : l1.get? 30 = l2.get? 30)
    (e32 : l1.get? 32 = l2.get? 32)
    (ha : (rightAnkleOf l1).isSome = true) (hf : (rightFootIndexOf l1).isSome = true) :
    (onPoseResults M r1 s).arShoeModel = (onPoseResults M r2 s).arShoeModel := by
  have era : rightAnkleOf l1 = rightAnkleOf l2 := getValidated_congr e28
  have erf : rightFootIndexOf l1 = rightFootIndexOf l2 := getValidated_congr e32
  obtain ⟨a, haa⟩ := Option.isSome_iff_exists.mp ha
  obtain ⟨f, hff⟩ := Option.isSome_iff_exists.mp hf
  have haa2 : rightAnkleOf l2 = some a := era ▸ haa
  have hff2 : rightFootIndexOf l2 = some f := erf ▸ hff
  by_cases hguard : s.isARMode = false ∨ s.hasOverlay = false
  · rw [onPose_inactive M r1 s hguard, onPose_inactive M r2 s hguard]
  · obtain ⟨hm, ho⟩ := active_of_not_guard hguard
    have hc1 : hasCompleteRightFoot l1 := ⟨ha, hf⟩
    have hc2 : hasCompleteRightFoot l2 := ⟨by rw [haa2]; rfl, by rw [hff2]; rfl⟩
    rw [onPose_full M r1 s l1 hm ho h1 hlen1, onPose_full M r2 s l2 hm ho h2 hlen2]
    rw [withPose_complete_eq M l1 _ (Or.inl hc1), withPose_complete_eq M l2 _ (Or.inl hc2)]
    rw [positionARShoe_eq_update, positionARShoe_eq_update]
    simp only [selectFoot, haa, hff, haa2, hff2]

/-- C10 witness: adding a visible left foot to a frame with a complete
right foot leaves the resulting tracked-object state unchanged. -/
theorem right_noninterference_witness :
    (onPoseResults mathQ ⟨some lmsRightFull⟩ stateActive).arShoeModel
      = (onPoseResults mathQ ⟨some lmsBothFull⟩ stateActive).arShoeModel :=
  right_noninterference ℚ mathQ stateActive ⟨some lmsRightFull⟩ ⟨some lmsBothFull⟩
    lmsRightFull lmsBothFull rfl rfl (by decide) (by decide)
    (by simp [lmsBothFull, lmsRightFull, baseLms])
    (by simp [lmsBothFull, lmsRightFull, baseLms])
    (by simp [lmsBothFull, lmsRightFull, baseLms])
    (by rw [lmsRightFull_validated.2.1]; rfl)
    (by rw [lmsRightFull_validated.2.2.2.2.2]; rfl)
